import Mathlib

/-!
Shallow embedding of `backend/main.py` (satellite altitude tracking service).

Modeling conventions:
* Instants are integers (UTC epoch seconds).  The public interface only
  accepts second-resolution ISO-8601 timestamps, and for every window
  representable by Python `datetime` the float expression
  `int(total_seconds / step)` computed by the code agrees with exact integer
  division truncated toward zero, which is `Int.tdiv` below.
* TLE text is modeled as lists of characters.
* Positions and altitudes are modeled over `ℝ` (the code computes with IEEE
  doubles); the external satellite library — `EarthSatellite` construction,
  i.e. TLE parsing, and SGP4 propagation `satellite.at(t)` — is a parameter
  of the embedding, mirroring the spec's treatment of the propagator as an
  external capability.  An exception raised by either is an `Except.error`.
-/

/-- Constant `EARTH_RADIUS_KM = 6371.0` (line 42). -/
noncomputable def EARTH_RADIUS_KM : ℝ := 6371

/-- Constant `MAX_DATA_POINTS = 20000` (line 43). -/
def MAX_DATA_POINTS : ℤ := 20000

/-- Exception classes, as far as the handler's `except` clauses can
distinguish them: a `ValueError`, or any other `Exception`. -/
inductive PyExc where
  | valueError
  | otherError
deriving DecidableEq

/-- Errors raised (as `HTTPException`s) inside `fetch_tle_from_celestrak`
(lines 47-97). -/
inductive FetchErr where
  | notFound (norad : ℤ)
  | badStatus (code : ℕ)
  | invalidFormat
  | timedOut
  | connectFailed
deriving DecidableEq

/-- HTTP status attached to each fetch error: 404 at line 68, 502 at lines
74, 82, 90 and 95. -/
def FetchErr.status : FetchErr → ℕ
  | .notFound _ => 404
  | .badStatus _ => 502
  | .invalidFormat => 502
  | .timedOut => 502
  | .connectFailed => 502

/-- Outcome of the underlying `httpx` GET request, abstracted: a response
with a status code and the body already stripped and split into lines, a
timeout, or a transport error. -/
inductive HttpxOutcome where
  | response (status : ℕ) (lines : List (List Char))
  | timeout
  | requestError

/-- Model of `fetch_tle_from_celestrak` (lines 47-97): status 404 maps to a
not-found error, any other non-200 status to a bad-status error, a body of
fewer than three lines to an invalid-format error; otherwise the second and
third lines of the body are returned as the element lines. -/
def fetch_tle_from_celestrak (norad : ℤ) :
    HttpxOutcome → Except FetchErr (List Char × List Char)
  | .response status lines =>
    if status = 404 then .error (.notFound norad)
    else if status ≠ 200 then .error (.badStatus status)
    else if h : lines.length < 3 then .error .invalidFormat
    else .ok (lines.get ⟨1, by omega⟩, lines.get ⟨2, by omega⟩)
  | .timeout => .error .timedOut
  | .requestError => .error .connectFailed

/-- `num_points = int(total_seconds / step_seconds) + 1` (lines 124-125,
repeated at lines 197-198).  Python `int()` truncates toward zero, which is
`Int.tdiv`. -/
def numPoints (start endT step : ℤ) : ℤ :=
  Int.tdiv (endT - start) step + 1

/-- The time grid walked by the loop at lines 130-161, instants only:
`fuel` counts the remaining iterations of `range(num_points)`, `i` is the
Python loop index and `current` the instant about to be sampled; after each
sample the next instant is recomputed directly as `start + (i+1)*step`
(line 158) and the loop breaks when that instant would pass `endT`
(lines 160-161). -/
def gridLoop (start endT step : ℤ) : ℕ → ℕ → ℤ → List ℤ
  | 0, _, _ => []
  | fuel + 1, i, current =>
    current ::
      (if start + ((i : ℤ) + 1) * step > endT then []
       else gridLoop start endT step fuel (i + 1) (start + ((i : ℤ) + 1) * step))

/-- The sequence of sample instants produced by `calculate_altitude_series`
for a given window (lines 124-161). -/
def sampleInstants (start endT step : ℤ) : List ℤ :=
  gridLoop start endT step (numPoints start endT step).toNat 0 start

/-- The propagation loop of `calculate_altitude_series` (lines 130-161),
parameterized by the per-instant computation `f` (propagate, then derive and
round the altitude).  An exception at any instant aborts the whole loop and
discards every point appended so far. -/
def seriesLoop {ε α : Type} (f : ℤ → Except ε α) (start endT step : ℤ) :
    ℕ → ℕ → ℤ → Except ε (List (ℤ × α))
  | 0, _, _ => .ok []
  | fuel + 1, i, current =>
    match f current with
    | .error e => .error e
    | .ok a =>
      if start + ((i : ℤ) + 1) * step > endT then .ok [(current, a)]
      else
        match seriesLoop f start endT step fuel (i + 1)
            (start + ((i : ℤ) + 1) * step) with
        | .error e => .error e
        | .ok rest => .ok ((current, a) :: rest)

/-- Rounding to two decimal places: Python `round(x, 2)` at line 154 (the
tie-breaking convention is irrelevant to every property proved here). -/
noncomputable def round2 (x : ℝ) : ℝ := (round (x * 100) : ℤ) / 100

/-- Altitude derivation (lines 144-149): Euclidean norm of the position
vector minus `EARTH_RADIUS_KM`. -/
noncomputable def altitude_km (p : ℝ × ℝ × ℝ) : ℝ :=
  Real.sqrt (p.1 ^ 2 + p.2.1 ^ 2 + p.2.2 ^ 2) - EARTH_RADIUS_KM

/-- Model of `calculate_altitude_series` (lines 100-163).  `parse` is the
`EarthSatellite` constructor (line 121) and `propagate` the SGP4 propagation
`satellite.at(t)` together with `.position.km` (lines 142-145), both
external library calls that may raise.  Each successful sample stores the
rounded altitude (lines 146-155). -/
noncomputable def calculate_altitude_series {ε σ : Type}
    (parse : List Char → List Char → Except ε σ)
    (propagate : σ → ℤ → Except ε (ℝ × ℝ × ℝ))
    (tle_line1 tle_line2 : List Char) (start endT step : ℤ) :
    Except ε (List (ℤ × ℝ)) :=
  match parse tle_line1 tle_line2 with
  | .error e => .error e
  | .ok sat =>
    seriesLoop (fun t =>
        match propagate sat t with
        | .error e => .error e
        | .ok p => .ok (round2 (altitude_km p)))
      start endT step (numPoints start endT step).toNat 0 start

/-- Python `str.strip()`: drop whitespace from both ends. -/
def pyStrip (s : List Char) : List Char :=
  ((s.dropWhile Char.isWhitespace).reverse.dropWhile Char.isWhitespace).reverse

/-- Epoch metadata extraction `tle_line1[18:32].strip()` (line 212): a pure
slice that never fails, whatever the line's length or content. -/
def tle_epoch_field (tle_line1 : List Char) : List Char :=
  pyStrip ((tle_line1.drop 18).take 14)

/-- Distinguishing detail of the `HTTPException`s raised inside the
handler's `try` block (lines 190-205) or inside the fetch (lines 47-97). -/
inductive HttpDetail where
  | startNotBeforeEnd
  | tooManyPoints (count maximum : ℤ)
  | fetchFail (e : FetchErr)
deriving DecidableEq

/-- An exception escaping the handler's `try` block: an `HTTPException`
carrying a status and detail, or a plain Python exception. -/
inductive TryErr where
  | httpExc (status : ℕ) (detail : HttpDetail)
  | pyExc (e : PyExc)
deriving DecidableEq

/-- Detail of the handler's final error responses: a FastAPI
query-validation rejection (outside the `try` block, from the `Query`
declarations at lines 174-177), the 400 `Invalid timestamp format` from
`except ValueError` (lines 237-241), or the generic 500
`Internal server error` from `except Exception` (lines 242-248), which
wraps `str(e)` of the intercepted exception. -/
inductive ErrDetail where
  | queryValidation
  | invalidTimestamp
  | internal (e : TryErr)
deriving DecidableEq

/-- The JSON document built at lines 224-235. -/
structure AltitudeResponse where
  norad_id : ℤ
  start : ℤ
  endTime : ℤ
  step_seconds : ℤ
  points : List (ℤ × ℝ)
  tle_epoch : List Char
  earth_radius_km : ℝ

/-- Body of the `try` block of `get_altitude` (lines 184-235): the
start-before-end check, the point-count check, the TLE fetch, the epoch
slice, the series computation, and the response. -/
noncomputable def try_block {σ : Type}
    (parse : List Char → List Char → Except PyExc σ)
    (propagate : σ → ℤ → Except PyExc (ℝ × ℝ × ℝ))
    (httpx : HttpxOutcome) (n start endT step : ℤ) :
    Except TryErr AltitudeResponse :=
  if endT ≤ start then .error (.httpExc 400 .startNotBeforeEnd)
  else if numPoints start endT step > MAX_DATA_POINTS then
    .error (.httpExc 400 (.tooManyPoints (numPoints start endT step) MAX_DATA_POINTS))
  else
    match fetch_tle_from_celestrak n httpx with
    | .error fe => .error (.httpExc fe.status (.fetchFail fe))
    | .ok (tle1, tle2) =>
      match calculate_altitude_series parse propagate tle1 tle2 start endT step with
      | .error e => .error (.pyExc e)
      | .ok pts => .ok ⟨n, start, endT, step, pts, tle_epoch_field tle1, EARTH_RADIUS_KM⟩

/-- Model of the `/altitude` handler `get_altitude` (lines 172-248) after
FastAPI query validation: the `try` block, then the two `except` clauses —
a `ValueError` becomes 400 `Invalid timestamp format`, and every other
exception, including any `HTTPException` raised inside the `try` block
(which is an `Exception` subclass and not a `ValueError`), becomes the
generic 500 `Internal server error`. -/
noncomputable def get_altitude {σ : Type}
    (parse : List Char → List Char → Except PyExc σ)
    (propagate : σ → ℤ → Except PyExc (ℝ × ℝ × ℝ))
    (httpx : HttpxOutcome) (n start endT step : ℤ) :
    Except (ℕ × ErrDetail) AltitudeResponse :=
  match try_block parse propagate httpx n start endT step with
  | .ok r => .ok r
  | .error (.pyExc .valueError) => .error (400, .invalidTimestamp)
  | .error e => .error (500, .internal e)

/-- The full endpoint including FastAPI's query validation (lines 174-177):
`n ≥ 1` and `1 ≤ step ≤ 3600` are enforced before the handler body runs,
yielding a 422 validation error otherwise. -/
noncomputable def altitude_endpoint {σ : Type}
    (parse : List Char → List Char → Except PyExc σ)
    (propagate : σ → ℤ → Except PyExc (ℝ × ℝ × ℝ))
    (httpx : HttpxOutcome) (n start endT step : ℤ) :
    Except (ℕ × ErrDetail) AltitudeResponse :=
  if n < 1 ∨ step < 1 ∨ 3600 < step then .error (422, .queryValidation)
  else get_altitude parse propagate httpx n start endT step

lemma numPoints_ofNat (a b : ℕ) (start : ℤ) :
    numPoints start (start + (a : ℤ)) (b : ℤ) = ((a / b : ℕ) : ℤ) + 1 := by
  unfold numPoints
  rw [add_sub_cancel_left, ← Int.ofNat_tdiv]

lemma numPoints_eq (start endT step : ℤ) (hse : start < endT) (hst : 0 < step) :
    numPoints start endT step = (((endT - start).toNat / step.toNat : ℕ) : ℤ) + 1 := by
  have hET : endT = start + ((endT - start).toNat : ℤ) := by omega
  have hstep : step = (step.toNat : ℤ) := by omega
  calc numPoints start endT step
      = numPoints start (start + ((endT - start).toNat : ℤ)) ((step.toNat : ℤ) : ℤ) := by
        rw [← hET, ← hstep]
    _ = (((endT - start).toNat / step.toNat : ℕ) : ℤ) + 1 := numPoints_ofNat _ _ _

lemma numPoints_pos (start endT step : ℤ) (hse : start < endT) (hst : 0 < step) :
    0 < (numPoints start endT step).toNat := by
  have h := numPoints_eq start endT step hse hst
  generalize (endT - start).toNat / step.toNat = q at h
  omega

lemma grid_instant_le_end (start endT step : ℤ) (hse : start < endT) (hst : 0 < step)
    (j : ℕ) (hj : (j : ℤ) < numPoints start endT step) :
    start + (j : ℤ) * step ≤ endT := by
  have hET : endT = start + ((endT - start).toNat : ℤ) := by omega
  have hstep : step = (step.toNat : ℤ) := by omega
  have hb0 : 0 < step.toNat := by omega
  rw [numPoints_eq start endT step hse hst] at hj
  have hj2 : j ≤ (endT - start).toNat / step.toNat := by exact_mod_cast Int.lt_add_one_iff.mp hj
  have hmul : j * step.toNat ≤ (endT - start).toNat := (Nat.le_div_iff_mul_le hb0).mp hj2
  have hmul2 : (j : ℤ) * ((step.toNat : ℕ) : ℤ) ≤ (((endT - start).toNat : ℕ) : ℤ) := by
    exact_mod_cast hmul
  rw [hET, hstep]
  linarith

lemma gridLoop_eq (start endT step : ℤ) (hse : start < endT) (hst : 0 < step) :
    ∀ (fuel i : ℕ), 0 < fuel → i + fuel = (numPoints start endT step).toNat →
      gridLoop start endT step fuel i (start + (i : ℤ) * step) =
        (List.range fuel).map (fun j : ℕ => start + ((i : ℤ) + (j : ℤ)) * step) := by
  intro fuel
  induction fuel with
  | zero => intro i h0 _; exact absurd h0 (by omega)
  | succ m ih =>
    intro i _ hsum
    cases m with
    | zero =>
      simp [gridLoop, ite_self, List.range_succ]
    | succ k =>
      have hidx : ((i + 1 : ℕ) : ℤ) < numPoints start endT step := by
        have h := numPoints_eq start endT step hse hst
        generalize (endT - start).toNat / step.toNat = q at h
        push_cast
        omega
      have hle : start + ((i : ℤ) + 1) * step ≤ endT := by
        have h := grid_instant_le_end start endT step hse hst (i + 1) hidx
        push_cast at h
        linarith
      have hcond : ¬ (start + ((i : ℤ) + 1) * step > endT) := not_lt.mpr hle
      have hstep1 : gridLoop start endT step (k + 1 + 1) i (start + (i : ℤ) * step) =
          (start + (i : ℤ) * step) ::
            gridLoop start endT step (k + 1) (i + 1) (start + ((i : ℤ) + 1) * step) := by
        simp [gridLoop, hcond]
      have hpos : start + ((i : ℤ) + 1) * step = start + ((i + 1 : ℕ) : ℤ) * step := by
        push_cast; ring
      have hrec := ih (i + 1) (by omega) (by omega)
      have hfun : ((fun j : ℕ => start + ((i : ℤ) + (j : ℤ)) * step) ∘ Nat.succ) =
          fun j : ℕ => start + (((i + 1 : ℕ) : ℤ) + (j : ℤ)) * step := by
        funext j
        show start + ((i : ℤ) + ((Nat.succ j : ℕ) : ℤ)) * step =
          start + (((i + 1 : ℕ) : ℤ) + (j : ℤ)) * step
        push_cast
        ring
      have hRHS : (List.range (k + 1 + 1)).map
            (fun j : ℕ => start + ((i : ℤ) + (j : ℤ)) * step) =
          (start + ((i : ℤ) + ((0 : ℕ) : ℤ)) * step) ::
            (List.range (k + 1)).map
              ((fun j : ℕ => start + ((i : ℤ) + (j : ℤ)) * step) ∘ Nat.succ) := by
        rw [List.range_succ_eq_map, List.map_cons, List.map_map]
      rw [hstep1, hpos, hrec, hRHS, hfun]
      simp

lemma sampleInstants_eq (start endT step : ℤ) (hse : start < endT) (hst : 0 < step) :
    sampleInstants start endT step =
      (List.range (numPoints start endT step).toNat).map
        (fun j : ℕ => start + (j : ℤ) * step) := by
  have h := gridLoop_eq start endT step hse hst (numPoints start endT step).toNat 0
    (numPoints_pos start endT step hse hst) (by omega)
  unfold sampleInstants
  simpa using h

lemma seriesLoop_succ {ε α : Type} (f : ℤ → Except ε α) (start endT step : ℤ)
    (fuel i : ℕ) (current : ℤ) :
    seriesLoop f start endT step (fuel + 1) i current =
      match f current with
      | .error e => .error e
      | .ok a =>
        if start + ((i : ℤ) + 1) * step > endT then .ok [(current, a)]
        else
          match seriesLoop f start endT step fuel (i + 1)
              (start + ((i : ℤ) + 1) * step) with
          | .error e => .error e
          | .ok rest => .ok ((current, a) :: rest) := rfl

lemma seriesLoop_ok {ε α : Type} (f : ℤ → Except ε α) (g : ℕ → α) (start endT step : ℤ)
    (hse : start < endT) (hst : 0 < step) :
    ∀ (fuel i : ℕ), 0 < fuel → i + fuel = (numPoints start endT step).toNat →
      (∀ j : ℕ, j < fuel → f (start + ((i : ℤ) + (j : ℤ)) * step) = .ok (g (i + j))) →
      seriesLoop f start endT step fuel i (start + (i : ℤ) * step) =
        .ok ((List.range fuel).map
          (fun j : ℕ => (start + ((i : ℤ) + (j : ℤ)) * step, g (i + j)))) := by
  intro fuel
  induction fuel with
  | zero => intro i h0 _ _; exact absurd h0 (by omega)
  | succ m ih =>
    intro i _ hsum hf
    have hcur : f (start + (i : ℤ) * step) = .ok (g i) := by
      have h0 := hf 0 (by omega)
      have e1 : start + ((i : ℤ) + ((0 : ℕ) : ℤ)) * step = start + (i : ℤ) * step := by
        push_cast; ring
      rw [e1] at h0
      simpa using h0
    cases m with
    | zero =>
      simp [seriesLoop, hcur, List.range_succ]
    | succ k =>
      have hidx : ((i + 1 : ℕ) : ℤ) < numPoints start endT step := by
        have h := numPoints_eq start endT step hse hst
        generalize (endT - start).toNat / step.toNat = q at h
        push_cast
        omega
      have hle : start + ((i : ℤ) + 1) * step ≤ endT := by
        have h := grid_instant_le_end start endT step hse hst (i + 1) hidx
        push_cast at h
        linarith
      have hcond : ¬ (start + ((i : ℤ) + 1) * step > endT) := not_lt.mpr hle
      have hf2 : ∀ j : ℕ, j < k + 1 →
          f (start + (((i + 1 : ℕ) : ℤ) + (j : ℤ)) * step) = .ok (g ((i + 1) + j)) := by
        intro j hj
        have h1 := hf (j + 1) (by omega)
        have e2 : start + ((i : ℤ) + ((j + 1 : ℕ) : ℤ)) * step =
            start + (((i + 1 : ℕ) : ℤ) + (j : ℤ)) * step := by push_cast; ring
        have e3 : i + (j + 1) = (i + 1) + j := by omega
        rw [e2, e3] at h1
        exact h1
      have hrec := ih (i + 1) (by omega) (by omega) hf2
      have epos : start + ((i : ℤ) + 1) * step = start + ((i + 1 : ℕ) : ℤ) * step := by
        push_cast; ring
      have hfun : ((fun j : ℕ => (start + ((i : ℤ) + (j : ℤ)) * step, g (i + j))) ∘ Nat.succ) =
          fun j : ℕ => (start + (((i + 1 : ℕ) : ℤ) + (j : ℤ)) * step, g ((i + 1) + j)) := by
        funext j
        show (start + ((i : ℤ) + ((Nat.succ j : ℕ) : ℤ)) * step, g (i + Nat.succ j)) =
          (start + (((i + 1 : ℕ) : ℤ) + (j : ℤ)) * step, g ((i + 1) + j))
        have e4 : start + ((i : ℤ) + ((Nat.succ j : ℕ) : ℤ)) * step =
            start + (((i + 1 : ℕ) : ℤ) + (j : ℤ)) * step := by push_cast; ring
        have e5 : i + Nat.succ j = (i + 1) + j := by omega
        rw [e4, e5]
      have hRHS : (List.range (k + 1 + 1)).map
            (fun j : ℕ => (start + ((i : ℤ) + (j : ℤ)) * step, g (i + j))) =
          (start + ((i : ℤ) + ((0 : ℕ) : ℤ)) * step, g (i + 0)) ::
            (List.range (k + 1)).map
              ((fun j : ℕ => (start + ((i : ℤ) + (j : ℤ)) * step, g (i + j))) ∘ Nat.succ) := by
        rw [List.range_succ_eq_map, List.map_cons, List.map_map]
      rw [hRHS, hfun]
      rw [seriesLoop_succ, hcur]
      dsimp only
      rw [if_neg hcond, epos, hrec]
      dsimp only
      simp

lemma seriesLoop_error {ε α : Type} (f : ℤ → Except ε α) (start endT step : ℤ)
    (hse : start < endT) (hst : 0 < step) :
    ∀ (k fuel i : ℕ), k < fuel → i + fuel = (numPoints start endT step).toNat →
      (∀ j : ℕ, j < k → ∃ a, f (start + ((i : ℤ) + (j : ℤ)) * step) = .ok a) →
      ∀ e : ε, f (start + ((i : ℤ) + (k : ℤ)) * step) = .error e →
      seriesLoop f start endT step fuel i (start + (i : ℤ) * step) = .error e := by
  intro k
  induction k with
  | zero =>
    intro fuel i hk hsum _ e herr
    obtain ⟨m, rfl⟩ : ∃ m, fuel = m + 1 := ⟨fuel - 1, by omega⟩
    have hcur : f (start + (i : ℤ) * step) = .error e := by
      have e1 : start + ((i : ℤ) + ((0 : ℕ) : ℤ)) * step = start + (i : ℤ) * step := by
        push_cast; ring
      rwa [e1] at herr
    simp [seriesLoop, hcur]
  | succ k ihk =>
    intro fuel i hk hsum hprev e herr
    obtain ⟨m, rfl⟩ : ∃ m, fuel = m + 1 := ⟨fuel - 1, by omega⟩
    obtain ⟨a0, ha0⟩ := hprev 0 (by omega)
    have hcur : f (start + (i : ℤ) * step) = .ok a0 := by
      have e1 : start + ((i : ℤ) + ((0 : ℕ) : ℤ)) * step = start + (i : ℤ) * step := by
        push_cast; ring
      rwa [e1] at ha0
    have hidx : ((i + 1 : ℕ) : ℤ) < numPoints start endT step := by
      have h := numPoints_eq start endT step hse hst
      generalize (endT - start).toNat / step.toNat = q at h
      push_cast
      omega
    have hle : start + ((i : ℤ) + 1) * step ≤ endT := by
      have h := grid_instant_le_end start endT step hse hst (i + 1) hidx
      push_cast at h
      linarith
    have hcond : ¬ (start + ((i : ℤ) + 1) * step > endT) := not_lt.mpr hle
    have hprev2 : ∀ j : ℕ, j < k →
        ∃ a, f (start + (((i + 1 : ℕ) : ℤ) + (j : ℤ)) * step) = .ok a := by
      intro j hj
      obtain ⟨a, ha⟩ := hprev (j + 1) (by omega)
      refine ⟨a, ?_⟩
      have e2 : start + ((i : ℤ) + ((j + 1 : ℕ) : ℤ)) * step =
          start + (((i + 1 : ℕ) : ℤ) + (j : ℤ)) * step := by push_cast; ring
      rwa [e2] at ha
    have herr2 : f (start + (((i + 1 : ℕ) : ℤ) + (k : ℤ)) * step) = .error e := by
      have e3 : start + ((i : ℤ) + ((k + 1 : ℕ) : ℤ)) * step =
          start + (((i + 1 : ℕ) : ℤ) + (k : ℤ)) * step := by push_cast; ring
      rwa [e3] at herr
    have hrec := ihk m (i + 1) (by omega) (by omega) hprev2 e herr2
    have epos : start + ((i : ℤ) + 1) * step = start + ((i + 1 : ℕ) : ℤ) * step := by
      push_cast; ring
    rw [seriesLoop_succ, hcur]
    dsimp only
    rw [if_neg hcond, epos, hrec]

lemma seriesLoop_ok_mem {ε α : Type} (f : ℤ → Except ε α) (start endT step : ℤ) :
    ∀ (fuel i : ℕ) (current : ℤ) (l : List (ℤ × α)),
      seriesLoop f start endT step fuel i current = .ok l →
      ∀ pr ∈ l, f pr.1 = .ok pr.2 := by
  intro fuel
  induction fuel with
  | zero =>
    intro i current l hl pr hpr
    simp [seriesLoop] at hl
    subst hl
    simp at hpr
  | succ m ih =>
    intro i current l hl pr hpr
    cases hf : f current with
    | error e => simp [seriesLoop, hf] at hl
    | ok a =>
      by_cases hc : start + ((i : ℤ) + 1) * step > endT
      · simp [seriesLoop, hf, hc] at hl
        subst hl
        simp at hpr
        subst hpr
        exact hf
      · cases hrec : seriesLoop f start endT step m (i + 1) (start + ((i : ℤ) + 1) * step) with
        | error e => simp [seriesLoop, hf, hc, hrec] at hl
        | ok rest =>
          simp [seriesLoop, hf, hc, hrec] at hl
          subst hl
          rcases List.mem_cons.mp hpr with h1 | h2
          · rw [h1]
            exact hf
          · exact ih (i + 1) (start + ((i : ℤ) + 1) * step) rest hrec pr h2

lemma calculate_ok_eq {ε σ : Type} (parse : List Char → List Char → Except ε σ)
    (propagate : σ → ℤ → Except ε (ℝ × ℝ × ℝ)) (l1 l2 : List Char)
    (start endT step : ℤ) (sat : σ) (g : ℕ → ℝ × ℝ × ℝ)
    (hparse : parse l1 l2 = .ok sat) (hse : start < endT) (hst : 0 < step)
    (hprop : ∀ j : ℕ, (j : ℤ) < numPoints start endT step →
      propagate sat (start + (j : ℤ) * step) = .ok (g j)) :
    calculate_altitude_series parse propagate l1 l2 start endT step =
      .ok ((List.range (numPoints start endT step).toNat).map
        (fun j : ℕ => (start + (j : ℤ) * step, round2 (altitude_km (g j))))) := by
  unfold calculate_altitude_series
  rw [hparse]
  have hnp := numPoints_eq start endT step hse hst
  have hf : ∀ j : ℕ, j < (numPoints start endT step).toNat →
      (fun t => match propagate sat t with
        | .error e => .error e
        | .ok p => .ok (round2 (altitude_km p)))
        (start + (((0 : ℕ) : ℤ) + (j : ℤ)) * step) =
        Except.ok ((fun j : ℕ => round2 (altitude_km (g j))) (0 + j)) := by
    intro j hj
    have hjlt : ((j : ℕ) : ℤ) < numPoints start endT step := by
      generalize (endT - start).toNat / step.toNat = q at hnp
      omega
    have e1 : start + (((0 : ℕ) : ℤ) + (j : ℤ)) * step = start + (j : ℤ) * step := by
      push_cast; ring
    rw [e1]
    simp [hprop j hjlt]
  have h := seriesLoop_ok (fun t => match propagate sat t with
      | .error e => .error e
      | .ok p => .ok (round2 (altitude_km p)))
    (fun j : ℕ => round2 (altitude_km (g j))) start endT step hse hst
    (numPoints start endT step).toNat 0
    (numPoints_pos start endT step hse hst) (by omega) hf
  simpa using h

lemma calculate_error_eq {ε σ : Type} (parse : List Char → List Char → Except ε σ)
    (propagate : σ → ℤ → Except ε (ℝ × ℝ × ℝ)) (l1 l2 : List Char)
    (start endT step : ℤ) (sat : σ) (k : ℕ) (e0 : ε)
    (hparse : parse l1 l2 = .ok sat) (hse : start < endT) (hst : 0 < step)
    (hk : (k : ℤ) < numPoints start endT step)
    (hprev : ∀ j : ℕ, j < k → ∃ p, propagate sat (start + (j : ℤ) * step) = .ok p)
    (herr : propagate sat (start + (k : ℤ) * step) = .error e0) :
    calculate_altitude_series parse propagate l1 l2 start endT step = .error e0 := by
  unfold calculate_altitude_series
  rw [hparse]
  have hkn : k < (numPoints start endT step).toNat := by omega
  have hprev2 : ∀ j : ℕ, j < k →
      ∃ a, (fun t => match propagate sat t with
        | .error e => .error e
        | .ok p => .ok (round2 (altitude_km p)))
        (start + (((0 : ℕ) : ℤ) + (j : ℤ)) * step) = Except.ok a := by
    intro j hj
    obtain ⟨p, hp⟩ := hprev j hj
    refine ⟨round2 (altitude_km p), ?_⟩
    have e1 : start + (((0 : ℕ) : ℤ) + (j : ℤ)) * step = start + (j : ℤ) * step := by
      push_cast; ring
    rw [e1]
    simp [hp]
  have herr2 : (fun t => match propagate sat t with
      | .error e => .error e
      | .ok p => .ok (round2 (altitude_km p)))
      (start + (((0 : ℕ) : ℤ) + (k : ℤ)) * step) = Except.error e0 := by
    have e1 : start + (((0 : ℕ) : ℤ) + (k : ℤ)) * step = start + (k : ℤ) * step := by
      push_cast; ring
    rw [e1]
    simp [herr]
  have h := seriesLoop_error (fun t => match propagate sat t with
      | .error e => .error e
      | .ok p => .ok (round2 (altitude_km p)))
    start endT step hse hst k (numPoints start endT step).toNat 0
    hkn (by omega) hprev2 e0 herr2
  simpa using h

lemma chain'_step_map (start step : ℤ) (m : ℕ) :
    List.Chain' (fun a b => b = a + step)
      ((List.range m).map (fun j : ℕ => start + (j : ℤ) * step)) := by
  rw [List.chain'_map]
  cases m with
  | zero => simp
  | succ k =>
    rw [List.chain'_range_succ]
    intro j hj
    push_cast
    ring

lemma round2_neg_earth : round2 (altitude_km ((0 : ℝ), (0 : ℝ), (0 : ℝ))) = -6371 := by
  have h0 : altitude_km ((0 : ℝ), (0 : ℝ), (0 : ℝ)) = -6371 := by
    simp [altitude_km, EARTH_RADIUS_KM]
  rw [round2, h0]
  have h1 : ((-6371 : ℝ)) * 100 = ((-637100 : ℤ) : ℝ) := by norm_num
  rw [h1, round_intCast]
  norm_num

lemma endpoint_ok_path {σ : Type}
    (parse : List Char → List Char → Except PyExc σ)
    (propagate : σ → ℤ → Except PyExc (ℝ × ℝ × ℝ))
    (nm l1 l2 : List Char) (n start endT step : ℤ)
    (hn : 1 ≤ n) (hst1 : 1 ≤ step) (hst2 : step ≤ 3600) (hse : start < endT)
    (hcap : numPoints start endT step ≤ MAX_DATA_POINTS) :
    altitude_endpoint parse propagate (.response 200 [nm, l1, l2]) n start endT step =
      match calculate_altitude_series parse propagate l1 l2 start endT step with
      | .error .valueError => .error (400, .invalidTimestamp)
      | .error .otherError => .error (500, .internal (.pyExc .otherError))
      | .ok pts => .ok ⟨n, start, endT, step, pts, tle_epoch_field l1, EARTH_RADIUS_KM⟩ := by
  have h1 : ¬(n < 1 ∨ step < 1 ∨ 3600 < step) := by omega
  have h2 : ¬(endT ≤ start) := by omega
  have h3 : ¬(numPoints start endT step > MAX_DATA_POINTS) := by omega
  cases hres : calculate_altitude_series parse propagate l1 l2 start endT step with
  | error e =>
    cases e with
    | valueError =>
      simp [altitude_endpoint, get_altitude, try_block, fetch_tle_from_celestrak,
        h1, h2, h3, hres]
    | otherError =>
      simp [altitude_endpoint, get_altitude, try_block, fetch_tle_from_celestrak,
        h1, h2, h3, hres]
  | ok pts =>
    simp [altitude_endpoint, get_altitude, try_block, fetch_tle_from_celestrak,
      h1, h2, h3, hres]

/-- C1: for every window with `start < end`, `1 ≤ step ≤ 3600`, and implied
point count at most 20000, the series of sample instants produced by the
loop of `calculate_altitude_series` is non-empty and strictly increasing,
its first instant equals `start`, every instant (in particular the last) is
at most `end`, and every pair of adjacent instants other than possibly the
final pair differs by exactly `step` seconds. -/
theorem C1_time_grid (start endT step : ℤ)
    (hse : start < endT) (hst1 : 1 ≤ step) (hst2 : step ≤ 3600)
    (hcap : numPoints start endT step ≤ 20000) :
    sampleInstants start endT step ≠ [] ∧
    (sampleInstants start endT step).Pairwise (· < ·) ∧
    (sampleInstants start endT step).head? = some start ∧
    (∀ t ∈ sampleInstants start endT step, t ≤ endT) ∧
    List.Chain' (fun a b => b = a + step) (sampleInstants start endT step).dropLast := by
  have hst : 0 < step := by omega
  have heq := sampleInstants_eq start endT step hse hst
  have hnp := numPoints_eq start endT step hse hst
  have hpos := numPoints_pos start endT step hse hst
  refine ⟨?_, ?_, ?_, ?_, ?_⟩
  · rw [heq]
    simp only [ne_eq, List.map_eq_nil_iff, List.range_eq_nil]
    omega
  · rw [heq]
    refine List.Pairwise.map _ ?_ (List.pairwise_lt_range _)
    intro a b hab
    have hab2 : (a : ℤ) < (b : ℤ) := by exact_mod_cast hab
    have := mul_lt_mul_of_pos_right hab2 hst
    linarith
  · rw [heq]
    obtain ⟨m, hm⟩ : ∃ m, (numPoints start endT step).toNat = m + 1 :=
      ⟨(numPoints start endT step).toNat - 1, by omega⟩
    rw [hm, List.range_succ_eq_map]
    simp
  · intro t ht
    rw [heq] at ht
    simp only [List.mem_map, List.mem_range] at ht
    obtain ⟨j, hj, rfl⟩ := ht
    have hjlt : (j : ℤ) < numPoints start endT step := by
      generalize (endT - start).toNat / step.toNat = q at hnp
      omega
    exact grid_instant_le_end start endT step hse hst j hjlt
  · rw [heq]
    obtain ⟨m, hm⟩ : ∃ m, (numPoints start endT step).toNat = m + 1 :=
      ⟨(numPoints start endT step).toNat - 1, by omega⟩
    rw [hm, List.range_succ, List.map_append, List.map_singleton, List.dropLast_concat]
    exact chain'_step_map start step m

/-- C1 witness: the window (0, 130, step 60) satisfies every hypothesis and
yields the instants 0, 60, 120. -/
theorem C1_time_grid_witness :
    ((0 : ℤ) < 130 ∧ (1 : ℤ) ≤ 60 ∧ (60 : ℤ) ≤ 3600 ∧ numPoints 0 130 60 ≤ 20000) ∧
    (sampleInstants 0 130 60 ≠ [] ∧
      (sampleInstants 0 130 60).Pairwise (· < ·) ∧
      (sampleInstants 0 130 60).head? = some 0 ∧
      (∀ t ∈ sampleInstants 0 130 60, t ≤ 130) ∧
      List.Chain' (fun a b => b = a + 60) (sampleInstants 0 130 60).dropLast) :=
  ⟨⟨by decide, by decide, by decide, by decide⟩,
    C1_time_grid 0 130 60 (by decide) (by decide) (by decide) (by decide)⟩

/-- C10: for every window with `start < end` and `step ≥ 1` on which
propagation succeeds at every sampled instant, `calculate_altitude_series`
returns exactly `int((end-start)/step) + 1` points (the value of
`numPoints`), each sample instant is computed directly as `start + i*step`,
and every pair of adjacent instants — including the final pair — differs by
exactly `step` seconds: the in-loop break guard never fires before the last
point is appended. -/
theorem C10_no_early_break {ε σ : Type}
    (parse : List Char → List Char → Except ε σ)
    (propagate : σ → ℤ → Except ε (ℝ × ℝ × ℝ))
    (l1 l2 : List Char) (start endT step : ℤ) (sat : σ) (g : ℕ → ℝ × ℝ × ℝ)
    (hparse : parse l1 l2 = .ok sat) (hse : start < endT) (hst : 1 ≤ step)
    (hprop : ∀ j : ℕ, (j : ℤ) < numPoints start endT step →
      propagate sat (start + (j : ℤ) * step) = .ok (g j)) :
    ∃ l, calculate_altitude_series parse propagate l1 l2 start endT step = .ok l ∧
      (l.length : ℤ) = numPoints start endT step ∧
      l.map Prod.fst = sampleInstants start endT step ∧
      List.Chain' (fun a b => b = a + step) (l.map Prod.fst) := by
  have hst0 : 0 < step := by omega
  have hnp := numPoints_eq start endT step hse hst0
  refine ⟨_, calculate_ok_eq parse propagate l1 l2 start endT step sat g
    hparse hse hst0 hprop, ?_, ?_, ?_⟩
  · simp only [List.length_map, List.length_range]
    generalize (endT - start).toNat / step.toNat = q at hnp
    omega
  · rw [sampleInstants_eq start endT step hse hst0, List.map_map]
    rfl
  · rw [List.map_map]
    have hcomp : (Prod.fst ∘ fun j : ℕ =>
        (start + (j : ℤ) * step, round2 (altitude_km (g j)))) =
        fun j : ℕ => start + (j : ℤ) * step := rfl
    rw [hcomp]
    exact chain'_step_map start step _

/-- C10 witness: window (0, 130, step 60) with a propagator that always
returns the position (6771, 0, 0). -/
theorem C10_no_early_break_witness :
    ((fun _ _ : List Char => (Except.ok () : Except PyExc Unit)) [] [] = Except.ok () ∧
      (0 : ℤ) < 130 ∧ (1 : ℤ) ≤ 60) ∧
    (∃ l, calculate_altitude_series
        (fun _ _ : List Char => (Except.ok () : Except PyExc Unit))
        (fun _ _ => Except.ok ((6771 : ℝ), (0 : ℝ), (0 : ℝ))) [] [] 0 130 60 = .ok l ∧
      (l.length : ℤ) = numPoints 0 130 60 ∧
      l.map Prod.fst = sampleInstants 0 130 60 ∧
      List.Chain' (fun a b => b = a + 60) (l.map Prod.fst)) :=
  ⟨⟨rfl, by decide, by decide⟩,
    C10_no_early_break (fun _ _ => Except.ok ()) (fun _ _ => Except.ok ((6771 : ℝ), 0, 0))
      [] [] 0 130 60 () (fun _ => ((6771 : ℝ), 0, 0)) rfl (by decide) (by decide)
      (fun j hj => rfl)⟩

/-- C3: if propagation fails at a sampled instant (the first failing instant
being `start + k*step`), the whole series computation aborts with exactly
the error raised at that instant — no partial list of samples is ever
returned — and the HTTP caller likewise receives an error response carrying
zero points. -/
theorem C3_fail_fast {σ : Type}
    (parse : List Char → List Char → Except PyExc σ)
    (propagate : σ → ℤ → Except PyExc (ℝ × ℝ × ℝ))
    (nm l1 l2 : List Char) (n start endT step : ℤ) (sat : σ) (k : ℕ) (e0 : PyExc)
    (hparse : parse l1 l2 = .ok sat)
    (hse : start < endT) (hst : 0 < step)
    (hk : (k : ℤ) < numPoints start endT step)
    (hprev : ∀ j : ℕ, j < k → ∃ p, propagate sat (start + (j : ℤ) * step) = .ok p)
    (herr : propagate sat (start + (k : ℤ) * step) = .error e0) :
    calculate_altitude_series parse propagate l1 l2 start endT step = .error e0 ∧
    ∃ err, altitude_endpoint parse propagate (.response 200 [nm, l1, l2])
      n start endT step = .error err := by
  have hcalc := calculate_error_eq parse propagate l1 l2 start endT step sat k e0
    hparse hse hst hk hprev herr
  refine ⟨hcalc, ?_⟩
  by_cases hq : n < 1 ∨ step < 1 ∨ 3600 < step
  · exact ⟨(422, .queryValidation), by simp [altitude_endpoint, hq]⟩
  · by_cases hcap : numPoints start endT step > MAX_DATA_POINTS
    · refine ⟨(500, .internal (.httpExc 400
        (.tooManyPoints (numPoints start endT step) MAX_DATA_POINTS))), ?_⟩
      have hns : ¬ endT ≤ start := by omega
      simp only [altitude_endpoint, get_altitude, try_block]
      rw [if_neg hq, if_neg hns, if_pos hcap]
    · have hpath := endpoint_ok_path parse propagate nm l1 l2 n start endT step
        (by omega) (by omega) (by omega) hse (not_lt.mp hcap)
      rw [hpath, hcalc]
      cases e0 with
      | valueError => exact ⟨(400, .invalidTimestamp), rfl⟩
      | otherError => exact ⟨(500, .internal (.pyExc .otherError)), rfl⟩

/-- C3 witness: a propagator stub that always fails makes the series abort
with that error at the very first instant, and the endpoint return an error
response. -/
theorem C3_fail_fast_witness :
    ((fun _ _ : List Char => (Except.ok () : Except PyExc Unit)) [] [] = Except.ok () ∧
      (0 : ℤ) < 60 ∧ (0 : ℤ) < 60 ∧ ((0 : ℕ) : ℤ) < numPoints 0 60 60 ∧
      (fun _ : Unit => fun _ : ℤ => (Except.error PyExc.otherError :
        Except PyExc (ℝ × ℝ × ℝ))) () (0 + ((0 : ℕ) : ℤ) * 60) = .error .otherError) ∧
    (calculate_altitude_series (fun _ _ : List Char => (Except.ok () : Except PyExc Unit))
        (fun _ _ => Except.error PyExc.otherError) [] [] 0 60 60 =
      .error PyExc.otherError ∧
    ∃ err, altitude_endpoint (fun _ _ : List Char => (Except.ok () : Except PyExc Unit))
        (fun _ _ => Except.error PyExc.otherError) (.response 200 [[], [], []])
        1 0 60 60 = .error err) :=
  ⟨⟨rfl, by decide, by decide, by decide, rfl⟩,
    C3_fail_fast (fun _ _ => Except.ok ()) (fun _ _ => Except.error PyExc.otherError)
      [] [] [] 1 0 60 60 () 0 PyExc.otherError rfl (by decide) (by decide) (by decide)
      (fun j hj => absurd hj (by omega)) rfl⟩

/-- C4: every sample in a successfully returned series carries, as its
reported value, exactly `round2` applied to the Euclidean norm of the
position vector the propagator returned at that instant minus
`EARTH_RADIUS_KM`; rounding to two decimal places happens only in this
output representation, the subtracted quantity itself being the unrounded
norm. -/
theorem C4_altitude_formula {ε σ : Type}
    (parse : List Char → List Char → Except ε σ)
    (propagate : σ → ℤ → Except ε (ℝ × ℝ × ℝ))
    (l1 l2 : List Char) (start endT step : ℤ) (l : List (ℤ × ℝ))
    (hok : calculate_altitude_series parse propagate l1 l2 start endT step = .ok l) :
    ∀ pr ∈ l, ∃ sat p, parse l1 l2 = .ok sat ∧ propagate sat pr.1 = .ok p ∧
      pr.2 = round2 (Real.sqrt (p.1 ^ 2 + p.2.1 ^ 2 + p.2.2 ^ 2) - EARTH_RADIUS_KM) := by
  intro pr hpr
  unfold calculate_altitude_series at hok
  cases hp : parse l1 l2 with
  | error e =>
    rw [hp] at hok
    exact absurd hok (by simp)
  | ok sat =>
    rw [hp] at hok
    have hmem := seriesLoop_ok_mem _ start endT step
      (numPoints start endT step).toNat 0 start l hok pr hpr
    cases hpp : propagate sat pr.1 with
    | error e =>
      simp only [hpp] at hmem
      exact absurd hmem (by simp)
    | ok p =>
      refine ⟨sat, p, rfl, hpp, ?_⟩
      simp only [hpp] at hmem
      have : round2 (altitude_km p) = pr.2 := by
        simpa using hmem
      rw [← this]
      unfold altitude_km
      rfl

/-- C4 witness: with a propagator that always returns (6771, 0, 0) on the
window (0, 60, step 60), the series succeeds and each sample satisfies the
formula. -/
theorem C4_altitude_formula_witness :
    (calculate_altitude_series (fun _ _ : List Char => (Except.ok () : Except PyExc Unit))
        (fun (_ : Unit) (_ : ℤ) =>
          (Except.ok ((6771 : ℝ), (0 : ℝ), (0 : ℝ)) : Except PyExc (ℝ × ℝ × ℝ)))
        [] [] 0 60 60 =
      .ok [((0 : ℤ), round2 (altitude_km ((6771 : ℝ), (0 : ℝ), (0 : ℝ)))),
           ((60 : ℤ), round2 (altitude_km ((6771 : ℝ), (0 : ℝ), (0 : ℝ))))]) ∧
    (∀ pr ∈ [((0 : ℤ), round2 (altitude_km ((6771 : ℝ), (0 : ℝ), (0 : ℝ)))),
             ((60 : ℤ), round2 (altitude_km ((6771 : ℝ), (0 : ℝ), (0 : ℝ))))],
      ∃ (sat : Unit) (p : ℝ × ℝ × ℝ),
        (fun _ _ : List Char => (Except.ok () : Except PyExc Unit)) [] [] =
          .ok sat ∧
        (fun (_ : Unit) (_ : ℤ) =>
          (Except.ok ((6771 : ℝ), (0 : ℝ), (0 : ℝ)) : Except PyExc (ℝ × ℝ × ℝ)))
          sat pr.1 = .ok p ∧
        pr.2 = round2 (Real.sqrt (p.1 ^ 2 + p.2.1 ^ 2 + p.2.2 ^ 2) - EARTH_RADIUS_KM)) :=
  ⟨rfl,
    C4_altitude_formula (fun _ _ => Except.ok ())
      (fun (_ : Unit) (_ : ℤ) =>
        (Except.ok ((6771 : ℝ), (0 : ℝ), (0 : ℝ)) : Except PyExc (ℝ × ℝ × ℝ)))
      [] [] 0 60 60
      [((0 : ℤ), round2 (altitude_km ((6771 : ℝ), (0 : ℝ), (0 : ℝ)))),
       ((60 : ℤ), round2 (altitude_km ((6771 : ℝ), (0 : ℝ), (0 : ℝ))))] rfl⟩

/-- C5 counterexample: with a propagator returning the zero vector at every
instant, `calculate_altitude_series` does not fail at all — no degeneracy
check exists in the code — and the returned series silently contains the
negative altitude -6371 km at every sample. -/
theorem C5_counterexample :
    calculate_altitude_series (fun _ _ : List Char => (Except.ok () : Except PyExc Unit))
        (fun (_ : Unit) (_ : ℤ) =>
          (Except.ok ((0 : ℝ), (0 : ℝ), (0 : ℝ)) : Except PyExc (ℝ × ℝ × ℝ)))
        [] [] 0 60 60 =
      .ok [((0 : ℤ), (-6371 : ℝ)), ((60 : ℤ), (-6371 : ℝ))] ∧ (-6371 : ℝ) < 0 := by
  constructor
  · have h : calculate_altitude_series (fun _ _ : List Char => (Except.ok () : Except PyExc Unit))
        (fun (_ : Unit) (_ : ℤ) =>
          (Except.ok ((0 : ℝ), (0 : ℝ), (0 : ℝ)) : Except PyExc (ℝ × ℝ × ℝ)))
        [] [] 0 60 60 =
        .ok [((0 : ℤ), round2 (altitude_km ((0 : ℝ), (0 : ℝ), (0 : ℝ)))),
             ((60 : ℤ), round2 (altitude_km ((0 : ℝ), (0 : ℝ), (0 : ℝ))))] := rfl
    rw [h, round2_neg_earth]
  · norm_num

/-- C5 amended: a zero (or otherwise degenerate) position vector is not
detected: the altitude derivation of `calculate_altitude_series`
unconditionally computes the Euclidean norm minus `EARTH_RADIUS_KM`, so a
propagator returning the zero vector yields a successful series whose every
sample silently carries the negative altitude -6371 km; no
`DegeneratePosition`-style failure exists in the code. -/
theorem C5_zero_vector_silent {σ : Type}
    (parse : List Char → List Char → Except PyExc σ)
    (l1 l2 : List Char) (start endT step : ℤ) (sat : σ)
    (hparse : parse l1 l2 = .ok sat) (hse : start < endT) (hst : 0 < step) :
    ∃ l, calculate_altitude_series parse
        (fun (_ : σ) (_ : ℤ) =>
          (Except.ok ((0 : ℝ), (0 : ℝ), (0 : ℝ)) : Except PyExc (ℝ × ℝ × ℝ)))
        l1 l2 start endT step = .ok l ∧
      l ≠ [] ∧ ∀ pr ∈ l, pr.2 = -6371 := by
  refine ⟨_, calculate_ok_eq parse _ l1 l2 start endT step sat
    (fun _ => ((0 : ℝ), (0 : ℝ), (0 : ℝ))) hparse hse hst (fun j hj => rfl), ?_, ?_⟩
  · have hpos := numPoints_pos start endT step hse hst
    simp only [ne_eq, List.map_eq_nil_iff, List.range_eq_nil]
    omega
  · intro pr hpr
    simp only [List.mem_map, List.mem_range] at hpr
    obtain ⟨j, hj, rfl⟩ := hpr
    exact round2_neg_earth

/-- C5 amended witness: the window (0, 60, step 60) with the zero-vector
propagator. -/
theorem C5_zero_vector_silent_witness :
    ((fun _ _ : List Char => (Except.ok () : Except PyExc Unit)) [] [] = Except.ok () ∧
      (0 : ℤ) < 60 ∧ (0 : ℤ) < 60) ∧
    (∃ l, calculate_altitude_series (fun _ _ : List Char => (Except.ok () : Except PyExc Unit))
        (fun (_ : Unit) (_ : ℤ) =>
          (Except.ok ((0 : ℝ), (0 : ℝ), (0 : ℝ)) : Except PyExc (ℝ × ℝ × ℝ)))
        [] [] 0 60 60 = .ok l ∧
      l ≠ [] ∧ ∀ pr ∈ l, pr.2 = -6371) :=
  ⟨⟨rfl, by decide, by decide⟩,
    C5_zero_vector_silent (fun _ _ => Except.ok ()) [] [] 0 60 60 () rfl
      (by decide) (by decide)⟩

/-- C6 counterexample: with element lines far shorter than the 69-character
fixed-width TLE format, the pipeline does not fail with any
malformed-element category: the `ValueError` the satellite library raises
for malformed lines is intercepted by the handler's `except ValueError`
clause and reported as the unrelated 400 `Invalid timestamp format` error. -/
theorem C6_counterexample :
    altitude_endpoint
        (fun _ _ : List Char => (Except.error PyExc.valueError : Except PyExc Unit))
        (fun (_ : Unit) (_ : ℤ) =>
          (Except.error PyExc.otherError : Except PyExc (ℝ × ℝ × ℝ)))
        (.response 200 [['I', 'S', 'S'], ['b', 'a', 'd'], ['b', 'a', 'd']])
        1 0 60 60 =
      .error (400, .invalidTimestamp) := rfl

/-- C6 amended: malformed element lines never surface as a
malformed-element error category.  Whatever exception the external TLE
parser raises while constructing the satellite, the handler re-labels it:
a `ValueError` (which the library raises for malformed lines) becomes the
unrelated 400 `Invalid timestamp format` response, and any other exception
becomes the generic 500 `Internal server error`; moreover the epoch field
is sliced out of line 1 with no validation at all, so a malformed
3-character line silently yields an empty epoch string. -/
theorem C6_malformed_relabeled {σ : Type} (e0 : PyExc)
    (propagate : σ → ℤ → Except PyExc (ℝ × ℝ × ℝ))
    (nm l1 l2 : List Char) (n start endT step : ℤ)
    (hn : 1 ≤ n) (hst1 : 1 ≤ step) (hst2 : step ≤ 3600) (hse : start < endT)
    (hcap : numPoints start endT step ≤ MAX_DATA_POINTS) :
    ((e0 = .valueError →
      altitude_endpoint (fun _ _ : List Char => (Except.error e0 : Except PyExc σ))
        propagate (.response 200 [nm, l1, l2]) n start endT step =
        .error (400, .invalidTimestamp)) ∧
    (e0 = .otherError →
      altitude_endpoint (fun _ _ : List Char => (Except.error e0 : Except PyExc σ))
        propagate (.response 200 [nm, l1, l2]) n start endT step =
        .error (500, .internal (.pyExc .otherError)))) ∧
    tle_epoch_field ['b', 'a', 'd'] = [] := by
  have hcalc : calculate_altitude_series
      (fun _ _ : List Char => (Except.error e0 : Except PyExc σ))
      propagate l1 l2 start endT step = .error e0 := rfl
  have hpath := endpoint_ok_path
    (fun _ _ : List Char => (Except.error e0 : Except PyExc σ))
    propagate nm l1 l2 n start endT step hn hst1 hst2 hse hcap
  rw [hcalc] at hpath
  refine ⟨⟨?_, ?_⟩, by decide⟩
  · intro he
    subst he
    exact hpath
  · intro he
    subst he
    exact hpath

/-- C6 amended witness: concrete malformed lines with each exception class. -/
theorem C6_malformed_relabeled_witness :
    ((1 : ℤ) ≤ 1 ∧ (1 : ℤ) ≤ 60 ∧ (60 : ℤ) ≤ 3600 ∧ (0 : ℤ) < 60 ∧
      numPoints 0 60 60 ≤ MAX_DATA_POINTS) ∧
    (((PyExc.otherError = PyExc.valueError →
      altitude_endpoint
        (fun _ _ : List Char => (Except.error PyExc.otherError : Except PyExc Unit))
        (fun (_ : Unit) (_ : ℤ) =>
          (Except.error PyExc.otherError : Except PyExc (ℝ × ℝ × ℝ)))
        (.response 200 [['I', 'S', 'S'], ['b', 'a', 'd'], ['b', 'a', 'd']]) 1 0 60 60 =
        .error (400, .invalidTimestamp)) ∧
    (PyExc.otherError = PyExc.otherError →
      altitude_endpoint
        (fun _ _ : List Char => (Except.error PyExc.otherError : Except PyExc Unit))
        (fun (_ : Unit) (_ : ℤ) =>
          (Except.error PyExc.otherError : Except PyExc (ℝ × ℝ × ℝ)))
        (.response 200 [['I', 'S', 'S'], ['b', 'a', 'd'], ['b', 'a', 'd']]) 1 0 60 60 =
        .error (500, .internal (.pyExc .otherError)))) ∧
    tle_epoch_field ['b', 'a', 'd'] = []) :=
  ⟨⟨by decide, by decide, by decide, by decide, by decide⟩,
    C6_malformed_relabeled PyExc.otherError
      (fun (_ : Unit) (_ : ℤ) =>
        (Except.error PyExc.otherError : Except PyExc (ℝ × ℝ × ℝ)))
      ['I', 'S', 'S'] ['b', 'a', 'd'] ['b', 'a', 'd'] 1 0 60 60
      (by decide) (by decide) (by decide) (by decide) (by decide)⟩

/-- C2: the point-count check uses `numPoints = int((end-start)/step) + 1`
and is exact against the cap: a window implying exactly 20001 points makes
the request fail with an error whose detail carries the offending count
20001 and the maximum 20000, for every fetch outcome and every propagator —
so before any TLE fetch or sample production — while a window implying
exactly 20000 points passes the check and can never produce a
too-many-points error.  (Per the catch-all clause, the error reaches the
caller wrapped as a 500 whose message retains the count and the cap.) -/
theorem C2_point_cap {σ : Type}
    (parse : List Char → List Char → Except PyExc σ)
    (propagate : σ → ℤ → Except PyExc (ℝ × ℝ × ℝ))
    (httpx : HttpxOutcome) (n start endT step : ℤ)
    (hn : 1 ≤ n) (hst1 : 1 ≤ step) (hst2 : step ≤ 3600) (hse : start < endT) :
    (numPoints start endT step = 20001 →
      altitude_endpoint parse propagate httpx n start endT step =
        .error (500, .internal (.httpExc 400 (.tooManyPoints 20001 20000)))) ∧
    (numPoints start endT step = 20000 →
      ∀ c m : ℤ, altitude_endpoint parse propagate httpx n start endT step ≠
        .error (500, .internal (.httpExc 400 (.tooManyPoints c m)))) := by
  have hq : ¬(n < 1 ∨ step < 1 ∨ 3600 < step) := by omega
  have hns : ¬ endT ≤ start := by omega
  constructor
  · intro h20001
    have hcap : numPoints start endT step > MAX_DATA_POINTS := by
      rw [h20001]; decide
    simp only [altitude_endpoint, get_altitude, try_block]
    rw [if_neg hq, if_neg hns, if_pos hcap, h20001]
    rfl
  · intro h20000 c m hcontra
    have hcap : ¬ (numPoints start endT step > MAX_DATA_POINTS) := by
      rw [h20000]; decide
    simp only [altitude_endpoint, get_altitude, try_block] at hcontra
    rw [if_neg hq, if_neg hns, if_neg hcap] at hcontra
    cases hf : fetch_tle_from_celestrak n httpx with
    | error fe =>
      rw [hf] at hcontra
      simp at hcontra
    | ok tl =>
      obtain ⟨t1, t2⟩ := tl
      rw [hf] at hcontra
      dsimp only at hcontra
      cases hc : calculate_altitude_series parse propagate t1 t2 start endT step with
      | error e =>
        rw [hc] at hcontra
        cases e <;> simp at hcontra
      | ok pts =>
        rw [hc] at hcontra
        simp at hcontra

/-- C2 witness: with step 1, the window (0, 20000) implies exactly 20001
points and is rejected with the count and the cap in the detail; the window
(0, 19999) implies exactly 20000 points and never yields a too-many-points
error. -/
theorem C2_point_cap_witness :
    (((1 : ℤ) ≤ 1 ∧ (1 : ℤ) ≤ 1 ∧ (1 : ℤ) ≤ 3600 ∧ (0 : ℤ) < 20000 ∧
        numPoints 0 20000 1 = 20001) ∧
      ((0 : ℤ) < 19999 ∧ numPoints 0 19999 1 = 20000)) ∧
    (altitude_endpoint (fun _ _ : List Char => (Except.ok () : Except PyExc Unit))
        (fun (_ : Unit) (_ : ℤ) =>
          (Except.error PyExc.otherError : Except PyExc (ℝ × ℝ × ℝ)))
        HttpxOutcome.timeout 1 0 20000 1 =
      .error (500, .internal (.httpExc 400 (.tooManyPoints 20001 20000))) ∧
    (∀ c m : ℤ,
      altitude_endpoint (fun _ _ : List Char => (Except.ok () : Except PyExc Unit))
        (fun (_ : Unit) (_ : ℤ) =>
          (Except.error PyExc.otherError : Except PyExc (ℝ × ℝ × ℝ)))
        HttpxOutcome.timeout 1 0 19999 1 ≠
      .error (500, .internal (.httpExc 400 (.tooManyPoints c m))))) :=
  ⟨⟨⟨by decide, by decide, by decide, by decide, by decide⟩,
    ⟨by decide, by decide⟩⟩,
    (C2_point_cap (fun _ _ => Except.ok ())
      (fun (_ : Unit) (_ : ℤ) =>
        (Except.error PyExc.otherError : Except PyExc (ℝ × ℝ × ℝ)))
      HttpxOutcome.timeout 1 0 20000 1
      (by decide) (by decide) (by decide) (by decide)).1 (by decide),
    (C2_point_cap (fun _ _ => Except.ok ())
      (fun (_ : Unit) (_ : ℤ) =>
        (Except.error PyExc.otherError : Except PyExc (ℝ × ℝ × ℝ)))
      HttpxOutcome.timeout 1 0 19999 1
      (by decide) (by decide) (by decide) (by decide)).2 (by decide)⟩

/-- C7: every request whose window is degenerate (`start ≥ end` or
`step ≤ 0`) or whose step exceeds 3600 fails — either with FastAPI's 422
query-validation rejection (for the step bounds, enforced before the
handler runs) or with the start-before-end window error (wrapped into a 500
by the catch-all clause) — and the rejection happens before any propagation
or fetch: the response is utterly independent of the propagator and of the
network outcome. -/
theorem C7_invalid_window {σ : Type}
    (parse : List Char → List Char → Except PyExc σ)
    (propagate₁ propagate₂ : σ → ℤ → Except PyExc (ℝ × ℝ × ℝ))
    (httpx₁ httpx₂ : HttpxOutcome) (n start endT step : ℤ)
    (hdeg : endT ≤ start ∨ step ≤ 0 ∨ 3600 < step) :
    (altitude_endpoint parse propagate₁ httpx₁ n start endT step =
        .error (422, .queryValidation) ∨
      altitude_endpoint parse propagate₁ httpx₁ n start endT step =
        .error (500, .internal (.httpExc 400 .startNotBeforeEnd))) ∧
    altitude_endpoint parse propagate₁ httpx₁ n start endT step =
      altitude_endpoint parse propagate₂ httpx₂ n start endT step := by
  by_cases hq : n < 1 ∨ step < 1 ∨ 3600 < step
  · constructor
    · left
      simp [altitude_endpoint, hq]
    · simp [altitude_endpoint, hq]
  · have hse2 : endT ≤ start := by omega
    have he : ∀ (pr : σ → ℤ → Except PyExc (ℝ × ℝ × ℝ)) (hx : HttpxOutcome),
        altitude_endpoint parse pr hx n start endT step =
          .error (500, .internal (.httpExc 400 .startNotBeforeEnd)) := by
      intro pr hx
      simp only [altitude_endpoint, get_altitude, try_block]
      rw [if_neg hq, if_pos hse2]
    constructor
    · right
      exact he propagate₁ httpx₁
    · rw [he propagate₁ httpx₁, he propagate₂ httpx₂]

/-- C7 witness: step 3601 is rejected as a query-validation error no matter
which propagator or network outcome is supplied. -/
theorem C7_invalid_window_witness :
    ((0 : ℤ) ≤ 0 ∨ (3601 : ℤ) ≤ 0 ∨ (3600 : ℤ) < 3601) ∧
    ((altitude_endpoint (fun _ _ : List Char => (Except.ok () : Except PyExc Unit))
        (fun (_ : Unit) (_ : ℤ) =>
          (Except.error PyExc.otherError : Except PyExc (ℝ × ℝ × ℝ)))
        HttpxOutcome.timeout 1 0 60 3601 = .error (422, .queryValidation) ∨
      altitude_endpoint (fun _ _ : List Char => (Except.ok () : Except PyExc Unit))
        (fun (_ : Unit) (_ : ℤ) =>
          (Except.error PyExc.otherError : Except PyExc (ℝ × ℝ × ℝ)))
        HttpxOutcome.timeout 1 0 60 3601 =
        .error (500, .internal (.httpExc 400 .startNotBeforeEnd))) ∧
    altitude_endpoint (fun _ _ : List Char => (Except.ok () : Except PyExc Unit))
        (fun (_ : Unit) (_ : ℤ) =>
          (Except.error PyExc.otherError : Except PyExc (ℝ × ℝ × ℝ)))
        HttpxOutcome.timeout 1 0 60 3601 =
      altitude_endpoint (fun _ _ : List Char => (Except.ok () : Except PyExc Unit))
        (fun (_ : Unit) (_ : ℤ) =>
          (Except.ok ((6771 : ℝ), (0 : ℝ), (0 : ℝ)) : Except PyExc (ℝ × ℝ × ℝ)))
        HttpxOutcome.requestError 1 0 60 3601) :=
  ⟨Or.inr (Or.inr (by decide)),
    C7_invalid_window (fun _ _ => Except.ok ())
      (fun (_ : Unit) (_ : ℤ) =>
        (Except.error PyExc.otherError : Except PyExc (ℝ × ℝ × ℝ)))
      (fun (_ : Unit) (_ : ℤ) =>
        (Except.ok ((6771 : ℝ), (0 : ℝ), (0 : ℝ)) : Except PyExc (ℝ × ℝ × ℝ)))
      HttpxOutcome.timeout HttpxOutcome.requestError 1 0 60 3601
      (Or.inr (Or.inr (by decide)))⟩

/-- C8: the pipeline is a deterministic pure function of its inputs — the
embedding of the series computation and of the whole endpoint has no state
whatsoever, so running it twice on identical (elements, window) inputs
produces identical output, sample for sample. -/
theorem C8_deterministic {σ : Type}
    (parse : List Char → List Char → Except PyExc σ)
    (propagate : σ → ℤ → Except PyExc (ℝ × ℝ × ℝ))
    (httpx : HttpxOutcome) (l1 l2 : List Char) (n start endT step : ℤ) :
    calculate_altitude_series parse propagate l1 l2 start endT step =
      calculate_altitude_series parse propagate l1 l2 start endT step ∧
    altitude_endpoint parse propagate httpx n start endT step =
      altitude_endpoint parse propagate httpx n start endT step :=
  ⟨rfl, rfl⟩

/-- C9: every specific `HTTPException` raised inside the handler's `try`
block — the 400 start-before-end rejection, the 400 too-many-points
rejection, and the 404/502 TLE-fetch failures — is intercepted by the final
`except Exception` clause (an `HTTPException` is an `Exception` subclass
and not a `ValueError`) and re-raised as a generic status-500
`Internal server error`, so the original status code never reaches the
caller as the response status. -/
theorem C9_catch_all_swallows {σ : Type}
    (parse : List Char → List Char → Except PyExc σ)
    (propagate : σ → ℤ → Except PyExc (ℝ × ℝ × ℝ))
    (n start endT step : ℤ)
    (hn : 1 ≤ n) (hst1 : 1 ≤ step) (hst2 : step ≤ 3600) :
    (∀ httpx : HttpxOutcome, endT ≤ start →
      altitude_endpoint parse propagate httpx n start endT step =
        .error (500, .internal (.httpExc 400 .startNotBeforeEnd))) ∧
    (∀ httpx : HttpxOutcome, start < endT →
      MAX_DATA_POINTS < numPoints start endT step →
      altitude_endpoint parse propagate httpx n start endT step =
        .error (500, .internal (.httpExc 400
          (.tooManyPoints (numPoints start endT step) MAX_DATA_POINTS)))) ∧
    (∀ (httpx : HttpxOutcome) (fe : FetchErr), start < endT →
      numPoints start endT step ≤ MAX_DATA_POINTS →
      fetch_tle_from_celestrak n httpx = .error fe →
      altitude_endpoint parse propagate httpx n start endT step =
        .error (500, .internal (.httpExc fe.status (.fetchFail fe)))) := by
  have hq : ¬(n < 1 ∨ step < 1 ∨ 3600 < step) := by omega
  refine ⟨?_, ?_, ?_⟩
  · intro httpx hle
    simp only [altitude_endpoint, get_altitude, try_block]
    rw [if_neg hq, if_pos hle]
  · intro httpx hse hgt
    simp only [altitude_endpoint, get_altitude, try_block]
    rw [if_neg hq, if_neg (by omega : ¬ endT ≤ start),
      if_pos (by omega : numPoints start endT step > MAX_DATA_POINTS)]
  · intro httpx fe hse hcap hfe
    simp only [altitude_endpoint, get_altitude, try_block]
    rw [if_neg hq, if_neg (by omega : ¬ endT ≤ start),
      if_neg (by omega : ¬ numPoints start endT step > MAX_DATA_POINTS), hfe]

/-- C9 witness: concrete requests exercising each interception — a
degenerate window, an oversized window, and a fetch timeout — all surface
as status-500 internal errors. -/
theorem C9_catch_all_swallows_witness :
    (((1 : ℤ) ≤ 1 ∧ (1 : ℤ) ≤ 60 ∧ (60 : ℤ) ≤ 3600 ∧ (0 : ℤ) ≤ 0) ∧
      ((1 : ℤ) ≤ 1 ∧ (0 : ℤ) < 20000 ∧ MAX_DATA_POINTS < numPoints 0 20000 1) ∧
      ((0 : ℤ) < 60 ∧ numPoints 0 60 60 ≤ MAX_DATA_POINTS ∧
        fetch_tle_from_celestrak 1 HttpxOutcome.timeout = .error .timedOut)) ∧
    (altitude_endpoint (fun _ _ : List Char => (Except.ok () : Except PyExc Unit))
        (fun (_ : Unit) (_ : ℤ) =>
          (Except.ok ((6771 : ℝ), (0 : ℝ), (0 : ℝ)) : Except PyExc (ℝ × ℝ × ℝ)))
        HttpxOutcome.timeout 1 0 0 60 =
      .error (500, .internal (.httpExc 400 .startNotBeforeEnd)) ∧
    altitude_endpoint (fun _ _ : List Char => (Except.ok () : Except PyExc Unit))
        (fun (_ : Unit) (_ : ℤ) =>
          (Except.ok ((6771 : ℝ), (0 : ℝ), (0 : ℝ)) : Except PyExc (ℝ × ℝ × ℝ)))
        HttpxOutcome.timeout 1 0 20000 1 =
      .error (500, .internal (.httpExc 400
        (.tooManyPoints (numPoints 0 20000 1) MAX_DATA_POINTS))) ∧
    altitude_endpoint (fun _ _ : List Char => (Except.ok () : Except PyExc Unit))
        (fun (_ : Unit) (_ : ℤ) =>
          (Except.ok ((6771 : ℝ), (0 : ℝ), (0 : ℝ)) : Except PyExc (ℝ × ℝ × ℝ)))
        HttpxOutcome.timeout 1 0 60 60 =
      .error (500, .internal (.httpExc 502 (.fetchFail .timedOut)))) :=
  ⟨⟨⟨by decide, by decide, by decide, by decide⟩,
    ⟨by decide, by decide, by decide⟩,
    ⟨by decide, by decide, rfl⟩⟩,
    (C9_catch_all_swallows (fun _ _ => Except.ok ())
      (fun (_ : Unit) (_ : ℤ) =>
        (Except.ok ((6771 : ℝ), (0 : ℝ), (0 : ℝ)) : Except PyExc (ℝ × ℝ × ℝ)))
      1 0 0 60 (by decide) (by decide) (by decide)).1
      HttpxOutcome.timeout (by decide),
    (C9_catch_all_swallows (fun _ _ => Except.ok ())
      (fun (_ : Unit) (_ : ℤ) =>
        (Except.ok ((6771 : ℝ), (0 : ℝ), (0 : ℝ)) : Except PyExc (ℝ × ℝ × ℝ)))
      1 0 20000 1 (by decide) (by decide) (by decide)).2.1
      HttpxOutcome.timeout (by decide) (by decide),
    (C9_catch_all_swallows (fun _ _ => Except.ok ())
      (fun (_ : Unit) (_ : ℤ) =>
        (Except.ok ((6771 : ℝ), (0 : ℝ), (0 : ℝ)) : Except PyExc (ℝ × ℝ × ℝ)))
      1 0 60 60 (by decide) (by decide) (by decide)).2.2
      HttpxOutcome.timeout FetchErr.timedOut (by decide) (by decide) rfl⟩
